import Mathlib

/-!
Verification of the transactional inventory and multi-currency ledger of the
punto_de_venta_web repository.  The SQLite tables that the claims touch are
embedded as Lean lists of records, DECIMAL/REAL money values as rationals,
and TEXT values as abstract character sequences (`List Nat`); the mutating
operations of `database.py` and the product/sale API handlers of `app.py`
become pure state transformers, with `Except` modelling raised exceptions
followed by `ROLLBACK`.
-/

/-- TEXT values (names, barcodes, descriptions) as abstract character
sequences; SQLite `LIKE` comparisons are case-insensitive, so characters are
modelled up to case folding. -/
abbrev Texto := List Nat

/-- SQLite ROUND(x, 2) on exact decimals: round half away from zero and half
up coincide on the non-negative money values involved; the model fixes
round half up. -/
def round2 (x : ℚ) : ℚ := ((round (x * 100) : ℤ) : ℚ) / 100

/-- `tipo_movimiento` column of `movimientos_inventario`. -/
inductive TipoMov where
  | entrada
  | salida
  | ajuste
deriving DecidableEq

/-- `motivo` column of `movimientos_inventario`; the code writes the strings
"Venta #<id>", "Compra #<id>", "Stock inicial" or a caller-supplied text. -/
inductive Motivo where
  | venta (id : Nat)
  | compra (id : Nat)
  | stockInicial
  | libre (t : Texto)
deriving DecidableEq

/-- `usuario` column; the code always writes "Sistema" from these paths. -/
inductive Usuario where
  | sistema
  | otro (t : Texto)
deriving DecidableEq

/-- A row of the `productos` table (the columns the claims touch;
`vende_al_mayor`, `unidades_por_bulto` and the timestamps are omitted). -/
structure Producto where
  id : Nat
  codigo_barras : Option Texto
  nombre : Texto
  descripcion : Option Texto
  categoria_id : Option Nat
  precio_venta : ℚ
  precio_compra : Option ℚ
  precio_venta_usd : Option ℚ
  precio_compra_usd : Option ℚ
  stock_actual : ℚ
  stock_minimo : ℚ
  tasa_camb : ℚ
  activo : Bool
deriving DecidableEq

/-- A row of the `ventas` table. -/
structure Venta where
  id : Nat
  cliente_id : Option Nat
  subtotal : ℚ
  impuesto : ℚ
  descuento : ℚ
  total : ℚ
  metodo_pago : Texto
  notas : Texto
deriving DecidableEq

/-- A row of the `detalle_ventas` table. -/
structure DetalleVenta where
  venta_id : Nat
  producto_id : Nat
  cantidad : ℚ
  precio_unitario : ℚ
  subtotal : ℚ
deriving DecidableEq

/-- A row of the `compras` table. -/
structure Compra where
  id : Nat
  proveedor_id : Nat
  documento : Option Texto
  fecha_compra : Texto
  tasa_cambio : ℚ
  subtotal_ves : ℚ
  total_ves : ℚ
  notas : Texto
deriving DecidableEq

/-- A row of the `detalle_compras` table. -/
structure DetalleCompra where
  compra_id : Nat
  producto_id : Nat
  cantidad : ℚ
  precio_unitario_usd : ℚ
  precio_unitario_ves : ℚ
  subtotal_ves : ℚ
deriving DecidableEq

/-- A row of the `movimientos_inventario` table. -/
structure Movimiento where
  producto_id : Nat
  tipo_movimiento : TipoMov
  cantidad : ℚ
  cantidad_anterior : ℚ
  cantidad_nueva : ℚ
  motivo : Motivo
  usuario : Usuario
deriving DecidableEq

/-- The persistent store.  `configuracion_monedas` is specialised to the one
row the claims use, `tasa_usd_ves`; `none` models the row being absent (the
`UPDATE ... WHERE nombre = ?` of `actualizar_configuracion_moneda` is then a
no-op, and `get_tasa_cambio` falls back to 36.50). -/
structure DB where
  productos : List Producto
  ventas : List Venta
  detalle_ventas : List DetalleVenta
  compras : List Compra
  detalle_compras : List DetalleCompra
  movimientos : List Movimiento
  tasa_usd_ves : Option ℚ
deriving DecidableEq

/-- `SELECT ... FROM productos WHERE id = ?` followed by `fetchone()`. -/
def findProducto (productos : List Producto) (pid : Nat) : Option Producto :=
  productos.find? (fun p => p.id == pid)

/-- `UPDATE productos SET ... WHERE id = ?`: apply `f` to every row whose id
matches. -/
def mapIfId (pid : Nat) (f : Producto → Producto) (l : List Producto) : List Producto :=
  l.map (fun p => if p.id == pid then f p else p)

/-- `UPDATE productos SET stock_actual = ? WHERE id = ?`. -/
def setStockProducto (l : List Producto) (pid : Nat) (nuevo : ℚ) : List Producto :=
  mapIfId pid (fun p => { p with stock_actual := nuevo }) l

/-- `get_tasa_cambio`: the stored rate or the fallback 36.50. -/
def getTasaCambio (db : DB) : ℚ := db.tasa_usd_ves.getD (73 / 2)

/-- `actualizar_configuracion_moneda('tasa_usd_ves', valor)`: an UPDATE that
only takes effect when the configuration row exists. -/
def actualizarTasaConfig (valor : ℚ) (db : DB) : DB :=
  { db with tasa_usd_ves := db.tasa_usd_ves.map (fun _ => valor) }

/-- The per-row effect of the UPDATE in `recalcular_precios_ves`: only rows
with both USD prices non-null are touched. -/
def recalcProducto (tasa : ℚ) (p : Producto) : Producto :=
  match p.precio_venta_usd, p.precio_compra_usd with
  | some pv, some pc =>
      { p with precio_venta := round2 (pv * tasa),
               precio_compra := some (round2 (pc * tasa)),
               tasa_camb := tasa }
  | _, _ => p

/-- `recalcular_precios_ves(nueva_tasa)` with an explicit rate argument
(every call site in the claims passes one). -/
def recalcularPreciosVes (tasa : ℚ) (db : DB) : DB :=
  { db with productos := db.productos.map (recalcProducto tasa) }

/-- `actualizar_tasa_cambio`: persist the rate, then recompute all prices. -/
def actualizarTasaCambio (nueva : ℚ) (db : DB) : DB :=
  recalcularPreciosVes nueva (actualizarTasaConfig nueva db)

/-- The sequence of committed states a `actualizar_tasa_cambio` call makes
visible to concurrent readers: the rate update and the price recomputation
run on separate connections and commit separately. -/
def setRateCommits (nueva : ℚ) (db : DB) : List DB :=
  [actualizarTasaConfig nueva db, actualizarTasaCambio nueva db]

/-- A state is rate-consistent when every product that has both USD base
prices shows a derived sell price and a derivation rate matching the
currently observable exchange rate. -/
def rateConsistentB (s : DB) : Bool :=
  s.productos.all (fun p =>
    match p.precio_venta_usd, p.precio_compra_usd with
    | some pv, some _ =>
        p.precio_venta == round2 (pv * getTasaCambio s) && p.tasa_camb == getTasaCambio s
    | _, _ => true)

/-- Errors raised inside a transaction (any Python exception triggers a
`conn.rollback()`); `notFound` models the failure on a missing product row,
`duplicateKey` the UNIQUE violation on `codigo_barras`. -/
inductive DBError where
  | notFound (producto_id : Nat)
  | duplicateKey
deriving DecidableEq

/-- One element of the `items_venta` argument of `crear_venta`. -/
structure ItemVenta where
  producto_id : Nat
  cantidad : ℚ
  precio_unitario : ℚ
deriving DecidableEq

/-- The body of `crear_venta`'s per-item loop: insert the `detalle_ventas`
row, read the current stock (raising when the product id does not exist),
write the decremented stock and append the `salida` movement. -/
def ventaItem (venta_id : Nat) (it : ItemVenta) (db : DB) : Except DBError DB :=
  let det : DetalleVenta :=
    ⟨venta_id, it.producto_id, it.cantidad, it.precio_unitario,
     it.cantidad * it.precio_unitario⟩
  let db1 := { db with detalle_ventas := db.detalle_ventas ++ [det] }
  match findProducto db1.productos it.producto_id with
  | none => .error (.notFound it.producto_id)
  | some p =>
      let nuevo := p.stock_actual - it.cantidad
      let mov : Movimiento :=
        ⟨it.producto_id, .salida, it.cantidad, p.stock_actual, nuevo,
         .venta venta_id, .sistema⟩
      let prods := setStockProducto db1.productos it.producto_id nuevo
      .ok { db1 with productos := prods, movimientos := db1.movimientos ++ [mov] }

/-- Sequential processing of the sale items. -/
def ventaItems (venta_id : Nat) : List ItemVenta → DB → Except DBError DB
  | [], db => .ok db
  | it :: rest, db =>
      match ventaItem venta_id it db with
      | .error e => .error e
      | .ok db1 => ventaItems venta_id rest db1

/-- The header insertion of `crear_venta`: compute `subtotal = Σ cantidad *
precio_unitario` and `total = subtotal + impuesto - descuento` and insert
the `ventas` row. -/
def ventaHeaderDB (items : List ItemVenta) (cliente_id : Option Nat)
    (metodo_pago : Texto) (descuento impuesto : ℚ) (notas : Texto)
    (db : DB) : DB :=
  let subtotal := (items.map (fun it => it.cantidad * it.precio_unitario)).sum
  let cab : Venta :=
    ⟨db.ventas.length + 1, cliente_id, subtotal, impuesto, descuento,
     subtotal + impuesto - descuento, metodo_pago, notas⟩
  { db with ventas := db.ventas ++ [cab] }

/-- `crear_venta` (database.py, the effective second definition): compute
the totals, insert the sale header, then process every item; an error
anywhere rolls the whole unit of work back. -/
def crearVenta (items : List ItemVenta) (cliente_id : Option Nat)
    (metodo_pago : Texto) (descuento impuesto : ℚ) (notas : Texto)
    (db : DB) : Except DBError (DB × Nat) :=
  match ventaItems (db.ventas.length + 1) items
      (ventaHeaderDB items cliente_id metodo_pago descuento impuesto notas db) with
  | .error e => .error e
  | .ok db2 => .ok (db2, db.ventas.length + 1)

/-- `crear_venta` as observed by the caller: an exception rolls back, so the
pre-call state survives and no id is returned. -/
def runCrearVenta (items : List ItemVenta) (cliente_id : Option Nat)
    (metodo_pago : Texto) (descuento impuesto : ℚ) (notas : Texto)
    (db : DB) : DB × Option Nat :=
  match crearVenta items cliente_id metodo_pago descuento impuesto notas db with
  | .error _ => (db, none)
  | .ok (db1, vid) => (db1, some vid)

/-- One element of the `items` argument of `crear_compra`. -/
structure ItemCompra where
  producto_id : Nat
  cantidad : ℚ
  precio_unitario_usd : ℚ
deriving DecidableEq

/-- The subtotal loop of `crear_compra`: per item, the VES unit price is
`round(usd * tasa, 2)` and the line subtotal `round(precio_ves * cant, 2)`. -/
def compraSubtotal (tasa : ℚ) (items : List ItemCompra) : ℚ :=
  (items.map (fun it =>
    round2 (round2 (it.precio_unitario_usd * tasa) * it.cantidad))).sum

/-- The purchase-cost overwrite `crear_compra` performs on the product row
of each line: USD unit cost, its VES derivation, and the rate used. -/
def costoCompra (it : ItemCompra) (tasa : ℚ) (p : Producto) : Producto :=
  { p with precio_compra_usd := some it.precio_unitario_usd,
           precio_compra := some (round2 (it.precio_unitario_usd * tasa)),
           tasa_camb := tasa }

/-- The body of `crear_compra`'s per-item loop: insert the detail row,
overwrite the product's purchase-cost fields and derivation rate, read the
stock (raising on a missing product), write the incremented stock and append
the `entrada` movement. -/
def compraItem (compra_id : Nat) (tasa : ℚ) (it : ItemCompra) (db : DB) :
    Except DBError DB :=
  let precio_ves := round2 (it.precio_unitario_usd * tasa)
  let det : DetalleCompra :=
    ⟨compra_id, it.producto_id, it.cantidad, it.precio_unitario_usd, precio_ves,
     round2 (precio_ves * it.cantidad)⟩
  let db1 := { db with detalle_compras := db.detalle_compras ++ [det] }
  let db2 := { db1 with
    productos := mapIfId it.producto_id (costoCompra it tasa) db1.productos }
  match findProducto db2.productos it.producto_id with
  | none => .error (.notFound it.producto_id)
  | some p =>
      let nuevo := p.stock_actual + it.cantidad
      let mov : Movimiento :=
        ⟨it.producto_id, .entrada, it.cantidad, p.stock_actual, nuevo,
         .compra compra_id, .sistema⟩
      let prods := setStockProducto db2.productos it.producto_id nuevo
      .ok { db2 with productos := prods, movimientos := db2.movimientos ++ [mov] }

/-- Sequential processing of the purchase items. -/
def compraItems (compra_id : Nat) (tasa : ℚ) : List ItemCompra → DB → Except DBError DB
  | [], db => .ok db
  | it :: rest, db =>
      match compraItem compra_id tasa it db with
      | .error e => .error e
      | .ok db1 => compraItems compra_id tasa rest db1

/-- The header insertion of `crear_compra`: the accumulated VES subtotal is
also the total. -/
def compraHeaderDB (proveedor_id : Nat) (documento : Option Texto)
    (fecha : Texto) (tasa : ℚ) (items : List ItemCompra) (notas : Texto)
    (db : DB) : DB :=
  let subtotal := compraSubtotal tasa items
  let cab : Compra :=
    ⟨db.compras.length + 1, proveedor_id, documento, fecha, tasa, subtotal,
     subtotal, notas⟩
  { db with compras := db.compras ++ [cab] }

/-- `crear_compra`: totals, purchase header, then the per-item loop; an
error anywhere rolls the whole unit of work back. -/
def crearCompra (proveedor_id : Nat) (documento : Option Texto) (fecha : Texto)
    (tasa : ℚ) (items : List ItemCompra) (notas : Texto) (db : DB) :
    Except DBError (DB × Nat) :=
  match compraItems (db.compras.length + 1) tasa items
      (compraHeaderDB proveedor_id documento fecha tasa items notas db) with
  | .error e => .error e
  | .ok db2 => .ok (db2, db.compras.length + 1)

/-- `crear_compra` with rollback-on-error semantics. -/
def runCrearCompra (proveedor_id : Nat) (documento : Option Texto) (fecha : Texto)
    (tasa : ℚ) (items : List ItemCompra) (notas : Texto) (db : DB) :
    DB × Option Nat :=
  match crearCompra proveedor_id documento fecha tasa items notas db with
  | .error _ => (db, none)
  | .ok (db1, cid) => (db1, some cid)

/-- The `productos` row `agregar_producto` inserts: USD columns and
`tasa_camb` take their schema defaults (NULL, NULL, 36.50), `activo`
defaults to 1. -/
def productoNuevo (pid : Nat) (codigo : Option Texto) (nombre : Texto)
    (descripcion : Option Texto) (categoria_id : Option Nat)
    (precio_venta : ℚ) (precio_compra : Option ℚ)
    (stock_inicial stock_minimo : ℚ) : Producto :=
  ⟨pid, codigo, nombre, descripcion, categoria_id, precio_venta,
   precio_compra, none, none, stock_inicial, stock_minimo, 73 / 2, true⟩

/-- The "Stock inicial" movement `agregar_producto` writes. -/
def movStockInicial (pid : Nat) (stock_inicial : ℚ) : Movimiento :=
  ⟨pid, .entrada, stock_inicial, 0, stock_inicial, .stockInicial, .sistema⟩

/-- `agregar_producto` (database.py): fail on a duplicate barcode (the UNIQUE
constraint fires for any existing row carrying the same non-null code),
insert the product with schema defaults, and when the initial stock is
positive append the `entrada` movement with reason "Stock inicial". -/
def agregarProducto (codigo : Option Texto) (nombre : Texto)
    (descripcion : Option Texto) (categoria_id : Option Nat)
    (precio_venta : ℚ) (precio_compra : Option ℚ)
    (stock_inicial stock_minimo : ℚ) (db : DB) : Except DBError (DB × Nat) :=
  if db.productos.any (fun p => codigo.isSome && p.codigo_barras == codigo) then
    .error .duplicateKey
  else
    .ok ({ db with
           productos := db.productos ++
             [productoNuevo (db.productos.length + 1) codigo nombre descripcion
               categoria_id precio_venta precio_compra stock_inicial stock_minimo],
           movimientos := if stock_inicial > 0 then
               db.movimientos ++
                 [movStockInicial (db.productos.length + 1) stock_inicial]
             else db.movimientos },
         db.productos.length + 1)

/-- `agregar_producto` with rollback-on-error semantics. -/
def runAgregarProducto (codigo : Option Texto) (nombre : Texto)
    (descripcion : Option Texto) (categoria_id : Option Nat)
    (precio_venta : ℚ) (precio_compra : Option ℚ)
    (stock_inicial stock_minimo : ℚ) (db : DB) : DB × Option Nat :=
  match agregarProducto codigo nombre descripcion categoria_id precio_venta
      precio_compra stock_inicial stock_minimo db with
  | .error _ => (db, none)
  | .ok (db1, pid) => (db1, some pid)

/-- `actualizar_stock_producto`: read the stock (raising on a missing id),
add the signed adjustment, write it back and append an `entrada` movement. -/
def actualizarStockProducto (pid : Nat) (cantidad_sumar : ℚ) (motivo : Motivo)
    (usuario : Usuario) (db : DB) : Except DBError (DB × ℚ) :=
  match findProducto db.productos pid with
  | none => .error (.notFound pid)
  | some p =>
      let nuevo := p.stock_actual + cantidad_sumar
      let mov : Movimiento :=
        ⟨pid, .entrada, cantidad_sumar, p.stock_actual, nuevo, motivo, usuario⟩
      let prods := setStockProducto db.productos pid nuevo
      .ok ({ db with productos := prods, movimientos := db.movimientos ++ [mov] }, nuevo)

/-- `actualizar_stock_producto` with rollback-on-error semantics. -/
def runActualizarStockProducto (pid : Nat) (cantidad_sumar : ℚ) (motivo : Motivo)
    (usuario : Usuario) (db : DB) : DB × Option ℚ :=
  match actualizarStockProducto pid cantidad_sumar motivo usuario db with
  | .error _ => (db, none)
  | .ok (db1, nuevo) => (db1, some nuevo)

/-- The JSON payload of the product PUT handler after Flask-side parsing:
`float(... ) or None` coercions of empty/zero optional fields are already
applied, mirroring `api_producto`. -/
structure ProductoPutData where
  codigo_barras : Option Texto
  nombre : Texto
  descripcion : Option Texto
  categoria_id : Option Nat
  precio_venta_usd : ℚ
  precio_compra_usd : Option ℚ
  stock_actual : ℚ
  stock_minimo : ℚ
deriving DecidableEq

/-- The column overwrite the PUT branch of `api_producto` performs: VES
prices rederived from the current rate, `stock_actual` taken verbatim from
the payload, `tasa_camb` untouched. -/
def productoActualizado (data : ProductoPutData) (tasa : ℚ) (p : Producto) :
    Producto :=
  { p with codigo_barras := data.codigo_barras,
           nombre := data.nombre,
           descripcion := data.descripcion,
           categoria_id := data.categoria_id,
           precio_venta_usd := some data.precio_venta_usd,
           precio_venta := round2 (data.precio_venta_usd * tasa),
           precio_compra_usd := data.precio_compra_usd,
           precio_compra := data.precio_compra_usd.map (fun u => round2 (u * tasa)),
           stock_actual := data.stock_actual,
           stock_minimo := data.stock_minimo }

/-- The PUT branch of `api_producto` (app.py): rederive the VES prices from
the current rate and overwrite the listed columns — including
`stock_actual`, taken verbatim from the payload — without writing any
inventory movement. -/
def apiProductoPut (pid : Nat) (data : ProductoPutData) (db : DB) : DB :=
  { db with productos :=
      mapIfId pid (productoActualizado data (getTasaCambio db)) db.productos }

/-- The DELETE branch of `api_producto`: `UPDATE productos SET activo = 0`. -/
def apiProductoDelete (pid : Nat) (db : DB) : DB :=
  { db with productos := mapIfId pid (fun p => { p with activo := false }) db.productos }

/-- Failures surfaced by the `/api/venta` POST handler. -/
inductive VentaApiError where
  | emptyCart
  | dbErr (e : DBError)
deriving DecidableEq

/-- `api_crear_venta` (app.py): reject an empty cart with a 400 before any
database work, otherwise delegate to `crear_venta`.  The optional payment
registrations that follow a successful sale touch only `pagos_documentos`
and are outside the claims. -/
def apiCrearVenta (items : List ItemVenta) (cliente_id : Option Nat)
    (metodo_pago : Texto) (descuento impuesto : ℚ) (notas : Texto)
    (db : DB) : Except VentaApiError (DB × Nat) :=
  if items.isEmpty then .error .emptyCart
  else
    match crearVenta items cliente_id metodo_pago descuento impuesto notas db with
    | .error e => .error (.dbErr e)
    | .ok r => .ok r

/-- `api_crear_venta` as a state transformer: a failure leaves the store in
the pre-call state. -/
def runApiCrearVenta (items : List ItemVenta) (cliente_id : Option Nat)
    (metodo_pago : Texto) (descuento impuesto : ℚ) (notas : Texto)
    (db : DB) : DB × Option Nat :=
  match apiCrearVenta items cliente_id metodo_pago descuento impuesto notas db with
  | .error _ => (db, none)
  | .ok (db1, vid) => (db1, some vid)

/-- Boolean matcher for text beginning: the kernel of the `LIKE` model. -/
def esPrefijoB : Texto → Texto → Bool
  | [], _ => true
  | _ :: _, [] => false
  | a :: as, b :: bs => a == b && esPrefijoB as bs

/-- `campo LIKE '%termino%'`: the pattern occurs as a contiguous substring. -/
def esInfijoB (xs : Texto) : Texto → Bool
  | [] => xs.isEmpty
  | b :: bs => esPrefijoB xs (b :: bs) || esInfijoB xs bs

/-- Lexicographic comparison used to model `ORDER BY p.nombre`. -/
def lexLe : Texto → Texto → Bool
  | [], _ => true
  | _ :: _, [] => false
  | a :: as, b :: bs => decide (a < b) || (a == b && lexLe as bs)

/-- Insert into a list sorted by `le`. -/
def insertLe {α : Type} (le : α → α → Bool) (a : α) : List α → List α
  | [] => [a]
  | b :: bs => if le a b then a :: b :: bs else b :: insertLe le a bs

/-- Insertion sort: the deterministic model of an SQL `ORDER BY`. -/
def sortLe {α : Type} (le : α → α → Bool) : List α → List α
  | [] => []
  | a :: as => insertLe le a (sortLe le as)

/-- The CASE rank of the exact-match query of `buscar_productos`: 1 when the
barcode equals the term, 2 otherwise. -/
def rankExacto (termino : Texto) (p : Producto) : Nat :=
  match p.codigo_barras with
  | some c => if c == termino then 1 else 2
  | none => 2

/-- The WHERE clause of the exact-match query: barcode equal to the term or
containing it (`codigo_barras = ? OR codigo_barras LIKE '%?%'`); NULL
barcodes match nothing. -/
def matchCodigo (termino : Texto) (p : Producto) : Bool :=
  match p.codigo_barras with
  | some c => c == termino || esInfijoB termino c
  | none => false

/-- `ORDER BY CASE WHEN codigo_barras = ? THEN 1 ELSE 2 END, nombre`. -/
def ordExacta (termino : Texto) (a b : Producto) : Bool :=
  decide (rankExacto termino a < rankExacto termino b) ||
    (rankExacto termino a == rankExacto termino b && lexLe a.nombre b.nombre)

/-- The WHERE clause of the fallback query of `buscar_productos`. -/
def matchGeneral (termino : Texto) (p : Producto) : Bool :=
  esInfijoB termino p.nombre ||
    (match p.descripcion with | some d => esInfijoB termino d | none => false) ||
    (match p.codigo_barras with | some c => esInfijoB termino c | none => false)

/-- The CASE rank of the fallback query: name match 1, description 2, else 3. -/
def rankGeneral (termino : Texto) (p : Producto) : Nat :=
  if esInfijoB termino p.nombre then 1
  else if (match p.descripcion with | some d => esInfijoB termino d | none => false)
  then 2 else 3

/-- `ORDER BY CASE ... END, nombre` of the fallback query. -/
def ordGeneral (termino : Texto) (a b : Producto) : Bool :=
  decide (rankGeneral termino a < rankGeneral termino b) ||
    (rankGeneral termino a == rankGeneral termino b && lexLe a.nombre b.nombre)

/-- `buscar_productos` (database.py): empty term returns nothing; otherwise
run the exact/contains barcode query first and return its rows when any
exist, falling back to the name/description/barcode substring query. -/
def buscarProductos (termino : Texto) (db : DB) : List Producto :=
  if termino.isEmpty then []
  else if (sortLe (ordExacta termino)
      (db.productos.filter (fun p => p.activo && matchCodigo termino p))).isEmpty
  then
    sortLe (ordGeneral termino)
      (db.productos.filter (fun p => p.activo && matchGeneral termino p))
  else
    sortLe (ordExacta termino)
      (db.productos.filter (fun p => p.activo && matchCodigo termino p))

/-- The signed stock delta a movement row records: the `cantidad` column
negated for `salida` rows. -/
def signedDelta (m : Movimiento) : ℚ :=
  match m.tipo_movimiento with
  | .salida => -m.cantidad
  | _ => m.cantidad

/-- The ledger rows written by one operation: the old table survives as a
prefix and every appended row reconciles, `cantidad_nueva -
cantidad_anterior = signedDelta`. -/
def movAppendOk (antes despues : DB) : Prop :=
  ∃ nuevos, despues.movimientos = antes.movimientos ++ nuevos ∧
    ∀ m ∈ nuevos, m.cantidad_nueva - m.cantidad_anterior = signedDelta m

/-- The stock column of the (first) `productos` row with the given id, 0
when absent — the value `SELECT stock_actual FROM productos WHERE id = ?`
returns. -/
def stockOf (db : DB) (pid : Nat) : ℚ :=
  match findProducto db.productos pid with
  | some p => p.stock_actual
  | none => 0

/-- Total quantity the sale items request for one product. -/
def sumCantidad (pid : Nat) (items : List ItemVenta) : ℚ :=
  ((items.filter (fun it => it.producto_id == pid)).map (fun it => it.cantidad)).sum

theorem findProducto_id {l : List Producto} {q : Nat} {p : Producto}
    (h : findProducto l q = some p) : p.id = q := by
  have h1 : l.find? (fun r => r.id == q) = some p := h
  have h2 := List.find?_some h1
  simpa using h2

theorem findProducto_mapIfId (g : Nat) (f : Producto → Producto)
    (hf : ∀ p, (f p).id = p.id) (l : List Producto) (q : Nat) :
    findProducto (mapIfId g f l) q =
      (findProducto l q).map (fun p => if p.id == g then f p else p) := by
  induction l with
  | nil => rfl
  | cons p l ih =>
      have hid : (if p.id == g then f p else p).id = p.id := by
        by_cases h : p.id == g <;> simp [h, hf]
      by_cases hq : p.id == q
      · have hpred : ((if p.id == g then f p else p).id == q) = true := by
          rw [hid]
          exact hq
        have h1 : findProducto (mapIfId g f (p :: l)) q =
            some (if p.id == g then f p else p) := by
          unfold findProducto mapIfId
          simp only [List.map_cons]
          exact List.find?_cons_of_pos _ hpred
        have h2 : findProducto (p :: l) q = some p := by
          unfold findProducto
          exact List.find?_cons_of_pos _ hq
        rw [h1, h2]
        rfl
      · have hpred : ((if p.id == g then f p else p).id == q) = false := by
          rw [hid]
          cases hb : (p.id == q) with
          | true => exact absurd hb hq
          | false => rfl
        have h1 : findProducto (mapIfId g f (p :: l)) q =
            findProducto (mapIfId g f l) q := by
          unfold findProducto mapIfId
          simp only [List.map_cons]
          exact List.find?_cons_of_neg _
            (fun hc => by rw [hpred] at hc; exact Bool.noConfusion hc)
        have h2 : findProducto (p :: l) q = findProducto l q := by
          unfold findProducto
          exact List.find?_cons_of_neg _ (by simp [hq])
        rw [h1, h2, ih]

theorem findProducto_setStock (l : List Producto) (g : Nat) (v : ℚ) (q : Nat) :
    findProducto (setStockProducto l g v) q =
      (findProducto l q).map
        (fun p => if p.id == g then { p with stock_actual := v } else p) := by
  unfold setStockProducto
  exact findProducto_mapIfId g (fun p => { p with stock_actual := v })
    (fun p => rfl) l q

theorem sumCantidad_cons (q : Nat) (it : ItemVenta) (rest : List ItemVenta) :
    sumCantidad q (it :: rest) =
      (if it.producto_id == q then it.cantidad else 0) + sumCantidad q rest := by
  by_cases h : it.producto_id == q <;>
    simp [sumCantidad, List.filter_cons, h]

theorem ventaItem_none {vid : Nat} {it : ItemVenta} {db : DB}
    (h : findProducto db.productos it.producto_id = none) :
    ventaItem vid it db = .error (.notFound it.producto_id) := by
  unfold ventaItem
  simp [h]

theorem ventaItem_some {vid : Nat} {it : ItemVenta} {db : DB} {p : Producto}
    (h : findProducto db.productos it.producto_id = some p) :
    ventaItem vid it db = .ok
      { db with
        detalle_ventas := db.detalle_ventas ++
          [⟨vid, it.producto_id, it.cantidad, it.precio_unitario,
            it.cantidad * it.precio_unitario⟩],
        productos := setStockProducto db.productos it.producto_id
          (p.stock_actual - it.cantidad),
        movimientos := db.movimientos ++
          [⟨it.producto_id, .salida, it.cantidad, p.stock_actual,
            p.stock_actual - it.cantidad, .venta vid, .sistema⟩] } := by
  unfold ventaItem
  simp [h]

theorem ventaItems_movs : ∀ (items : List ItemVenta) (vid : Nat) (db db' : DB),
    ventaItems vid items db = .ok db' →
    ∃ nuevos, db'.movimientos = db.movimientos ++ nuevos ∧
      ∀ m ∈ nuevos, m.cantidad_nueva - m.cantidad_anterior = signedDelta m := by
  intro items
  induction items with
  | nil =>
      intro vid db db' h
      simp [ventaItems] at h
      subst h
      exact ⟨[], by simp, by simp⟩
  | cons it rest ih =>
      intro vid db db' h
      cases hf : findProducto db.productos it.producto_id with
      | none =>
          rw [ventaItems, ventaItem_none hf] at h
          simp at h
      | some p =>
          rw [ventaItems, ventaItem_some hf] at h
          simp only at h
          obtain ⟨nuevos, hmov, hok⟩ := ih vid _ db' h
          refine ⟨⟨it.producto_id, .salida, it.cantidad, p.stock_actual,
            p.stock_actual - it.cantidad, .venta vid, .sistema⟩ :: nuevos, ?_, ?_⟩
          · rw [hmov]
            simp
          · intro m hm
            rcases List.mem_cons.mp hm with h1 | h1
            · subst h1
              simp [signedDelta]
            · exact hok m h1

theorem ventaItems_cons_ok {vid : Nat} {it : ItemVenta} {rest : List ItemVenta}
    {db db1 : DB} (h : ventaItem vid it db = .ok db1) :
    ventaItems vid (it :: rest) db = ventaItems vid rest db1 := by
  rw [ventaItems, h]

theorem ventaItems_cons_err {vid : Nat} {it : ItemVenta} {rest : List ItemVenta}
    {db : DB} {e : DBError} (h : ventaItem vid it db = .error e) :
    ventaItems vid (it :: rest) db = .error e := by
  rw [ventaItems, h]

theorem ventaItem_some' {vid : Nat} {it : ItemVenta} {db : DB} {p : Producto}
    (h : findProducto db.productos it.producto_id = some p) :
    ∃ db2, ventaItem vid it db = .ok db2 ∧
      db2.productos = setStockProducto db.productos it.producto_id
        (p.stock_actual - it.cantidad) ∧
      db2.movimientos = db.movimientos ++
        [⟨it.producto_id, .salida, it.cantidad, p.stock_actual,
          p.stock_actual - it.cantidad, .venta vid, .sistema⟩] ∧
      db2.ventas = db.ventas ∧ db2.compras = db.compras ∧
      db2.detalle_compras = db.detalle_compras ∧
      db2.tasa_usd_ves = db.tasa_usd_ves := by
  exact ⟨_, ventaItem_some h, rfl, rfl, rfl, rfl, rfl, rfl⟩

theorem ventaItems_err : ∀ (items : List ItemVenta) (vid : Nat) (db : DB)
    (it : ItemVenta), it ∈ items →
    findProducto db.productos it.producto_id = none →
    ∃ pid, ventaItems vid items db = .error (.notFound pid) := by
  intro items
  induction items with
  | nil =>
      intro vid db it hmem
      exact absurd hmem (List.not_mem_nil it)
  | cons a rest ih =>
      intro vid db it hmem hnone
      cases hf : findProducto db.productos a.producto_id with
      | none =>
          exact ⟨a.producto_id, ventaItems_cons_err (ventaItem_none hf)⟩
      | some p =>
          rcases List.mem_cons.mp hmem with rfl | hr
          · rw [hf] at hnone
            exact Option.noConfusion hnone
          · obtain ⟨db2, hstep, hprod, hmovs, hv, hc, hdc, ht⟩ := ventaItem_some' hf
            rw [ventaItems_cons_ok hstep]
            apply ih vid db2 it hr
            rw [hprod, findProducto_setStock, hnone]
            rfl

theorem isSome_map_findProducto {o : Option Producto} {f : Producto → Producto} :
    (o.map f).isSome = o.isSome := by
  cases o <;> rfl

theorem ventaItems_spec : ∀ (items : List ItemVenta) (vid : Nat) (db : DB),
    (∀ it ∈ items, (findProducto db.productos it.producto_id).isSome = true) →
    ∃ db', ventaItems vid items db = .ok db' ∧
      ∀ q, findProducto db'.productos q =
        (findProducto db.productos q).map
          (fun p => { p with stock_actual := p.stock_actual - sumCantidad q items }) := by
  intro items
  induction items with
  | nil =>
      intro vid db _
      refine ⟨db, rfl, fun q => ?_⟩
      cases hfq : findProducto db.productos q with
      | none => rfl
      | some r => simp [sumCantidad]
  | cons a rest ih =>
      intro vid db hp
      have ha := hp a (List.mem_cons_self a rest)
      cases hf : findProducto db.productos a.producto_id with
      | none =>
          rw [hf] at ha
          simp at ha
      | some p =>
          obtain ⟨db2, hstep, hprod, hmovs, hv, hc, hdc, ht⟩ := ventaItem_some' hf
          have hpres : ∀ it ∈ rest, (findProducto db2.productos it.producto_id).isSome = true := by
            intro it hit
            rw [hprod, findProducto_setStock, isSome_map_findProducto]
            exact hp it (List.mem_cons_of_mem a hit)
          obtain ⟨db', hrun, hmapq⟩ := ih vid db2 hpres
          refine ⟨db', by rw [ventaItems_cons_ok hstep]; exact hrun, fun q => ?_⟩
          rw [hmapq q, hprod, findProducto_setStock]
          cases hfq : findProducto db.productos q with
          | none => rfl
          | some r =>
              have hid : r.id = q := findProducto_id hfq
              by_cases hqa : q = a.producto_id
              · subst hqa
                rw [hf] at hfq
                injection hfq with hrp
                subst hrp
                have hcond : (p.id == a.producto_id) = true := by
                  simp only [beq_iff_eq]
                  exact hid
                have hcond2 : (a.producto_id == a.producto_id) = true := by simp
                simp only [Option.map_some']
                rw [if_pos hcond, sumCantidad_cons, if_pos hcond2, sub_sub]
              · have hcond : ¬ (r.id == a.producto_id) = true := by
                  rw [hid]
                  simp only [beq_iff_eq]
                  exact hqa
                have hcond2 : ¬ (a.producto_id == q) = true := by
                  simp only [beq_iff_eq]
                  exact fun hcon => hqa hcon.symm
                simp only [Option.map_some']
                rw [if_neg hcond, sumCantidad_cons, if_neg hcond2, zero_add]

theorem findProducto_mapIfId_ne {g : Nat} {f : Producto → Producto}
    {l : List Producto} {q : Nat} (hf : ∀ p, (f p).id = p.id) (hne : q ≠ g) :
    findProducto (mapIfId g f l) q = findProducto l q := by
  rw [findProducto_mapIfId g f hf]
  cases hq : findProducto l q with
  | none => rfl
  | some r =>
      have hid := findProducto_id hq
      simp only [Option.map_some']
      rw [if_neg (by simp only [beq_iff_eq]; rw [hid]; exact hne)]

theorem findProducto_mapIfId_self {g : Nat} {f : Producto → Producto}
    {l : List Producto} {p : Producto} (hf : ∀ p, (f p).id = p.id)
    (h : findProducto l g = some p) :
    findProducto (mapIfId g f l) g = some (f p) := by
  rw [findProducto_mapIfId g f hf, h]
  simp only [Option.map_some']
  rw [if_pos (by simp only [beq_iff_eq]; exact findProducto_id h)]

theorem compraItem_none {cid : Nat} {tasa : ℚ} {it : ItemCompra} {db : DB}
    (h : findProducto db.productos it.producto_id = none) :
    compraItem cid tasa it db = .error (.notFound it.producto_id) := by
  unfold compraItem
  have h2 : findProducto (mapIfId it.producto_id (costoCompra it tasa)
      db.productos) it.producto_id = none := by
    rw [findProducto_mapIfId it.producto_id (costoCompra it tasa)
      (fun r => rfl), h]
    rfl
  simp [h2]

theorem compraItem_some {cid : Nat} {tasa : ℚ} {it : ItemCompra} {db : DB}
    {p : Producto} (h : findProducto db.productos it.producto_id = some p) :
    compraItem cid tasa it db = .ok
      { db with
        detalle_compras := db.detalle_compras ++
          [⟨cid, it.producto_id, it.cantidad, it.precio_unitario_usd,
            round2 (it.precio_unitario_usd * tasa),
            round2 (round2 (it.precio_unitario_usd * tasa) * it.cantidad)⟩],
        productos := setStockProducto
          (mapIfId it.producto_id (costoCompra it tasa) db.productos)
          it.producto_id (p.stock_actual + it.cantidad),
        movimientos := db.movimientos ++
          [⟨it.producto_id, .entrada, it.cantidad, p.stock_actual,
            p.stock_actual + it.cantidad, .compra cid, .sistema⟩] } := by
  unfold compraItem
  have h2 : findProducto (mapIfId it.producto_id (costoCompra it tasa)
      db.productos) it.producto_id = some (costoCompra it tasa p) :=
    findProducto_mapIfId_self (fun r => rfl) h
  simp [h2, costoCompra]

theorem compraItem_some' {cid : Nat} {tasa : ℚ} {it : ItemCompra} {db : DB}
    {p : Producto} (h : findProducto db.productos it.producto_id = some p) :
    ∃ db2, compraItem cid tasa it db = .ok db2 ∧
      db2.productos = setStockProducto
        (mapIfId it.producto_id (costoCompra it tasa) db.productos)
        it.producto_id (p.stock_actual + it.cantidad) ∧
      db2.movimientos = db.movimientos ++
        [⟨it.producto_id, .entrada, it.cantidad, p.stock_actual,
          p.stock_actual + it.cantidad, .compra cid, .sistema⟩] ∧
      db2.ventas = db.ventas ∧ db2.compras = db.compras ∧
      db2.detalle_ventas = db.detalle_ventas ∧
      db2.tasa_usd_ves = db.tasa_usd_ves :=
  ⟨_, compraItem_some h, rfl, rfl, rfl, rfl, rfl, rfl⟩

theorem compraItems_cons_ok {cid : Nat} {tasa : ℚ} {it : ItemCompra}
    {rest : List ItemCompra} {db db1 : DB}
    (h : compraItem cid tasa it db = .ok db1) :
    compraItems cid tasa (it :: rest) db = compraItems cid tasa rest db1 := by
  rw [compraItems, h]

theorem compraItems_cons_err {cid : Nat} {tasa : ℚ} {it : ItemCompra}
    {rest : List ItemCompra} {db : DB} {e : DBError}
    (h : compraItem cid tasa it db = .error e) :
    compraItems cid tasa (it :: rest) db = .error e := by
  rw [compraItems, h]

theorem compraItems_movs : ∀ (items : List ItemCompra) (cid : Nat) (tasa : ℚ)
    (db db' : DB), compraItems cid tasa items db = .ok db' →
    ∃ nuevos, db'.movimientos = db.movimientos ++ nuevos ∧
      ∀ m ∈ nuevos, m.cantidad_nueva - m.cantidad_anterior = signedDelta m := by
  intro items
  induction items with
  | nil =>
      intro cid tasa db db' h
      simp [compraItems] at h
      subst h
      exact ⟨[], by simp, by simp⟩
  | cons it rest ih =>
      intro cid tasa db db' h
      cases hf : findProducto db.productos it.producto_id with
      | none =>
          rw [compraItems_cons_err (compraItem_none hf)] at h
          simp at h
      | some p =>
          obtain ⟨db2, hstep, hprod, hmovs, hv, hc, hdv, ht⟩ := compraItem_some' hf
          rw [compraItems_cons_ok hstep] at h
          obtain ⟨nuevos, hm, hok⟩ := ih cid tasa db2 db' h
          refine ⟨⟨it.producto_id, .entrada, it.cantidad, p.stock_actual,
            p.stock_actual + it.cantidad, .compra cid, .sistema⟩ :: nuevos, ?_, ?_⟩
          · rw [hm, hmovs]
            simp
          · intro m hm2
            rcases List.mem_cons.mp hm2 with h1 | h1
            · subst h1
              simp [signedDelta]
            · exact hok m h1

theorem findProducto_setStock_ne {l : List Producto} {g : Nat} {v : ℚ} {q : Nat}
    (hq : q ≠ g) : findProducto (setStockProducto l g v) q = findProducto l q := by
  unfold setStockProducto
  exact @findProducto_mapIfId_ne g (fun p => { p with stock_actual := v }) l q
    (fun p => rfl) hq

theorem findProducto_setStock_self {l : List Producto} {g : Nat} {v : ℚ}
    {p : Producto} (h : findProducto l g = some p) :
    findProducto (setStockProducto l g v) g = some { p with stock_actual := v } := by
  unfold setStockProducto
  exact @findProducto_mapIfId_self g (fun p => { p with stock_actual := v }) l p
    (fun p => rfl) h

theorem findProducto_costo_ne {it : ItemCompra} {tasa : ℚ} {l : List Producto}
    {q : Nat} (hq : q ≠ it.producto_id) :
    findProducto (mapIfId it.producto_id (costoCompra it tasa) l) q =
      findProducto l q :=
  @findProducto_mapIfId_ne it.producto_id (costoCompra it tasa) l q
    (fun _ => rfl) hq

theorem findProducto_costo_self {it : ItemCompra} {tasa : ℚ} {l : List Producto}
    {p : Producto} (h : findProducto l it.producto_id = some p) :
    findProducto (mapIfId it.producto_id (costoCompra it tasa) l)
      it.producto_id = some (costoCompra it tasa p) :=
  @findProducto_mapIfId_self it.producto_id (costoCompra it tasa) l p
    (fun _ => rfl) h

theorem compraItems_spec : ∀ (items : List ItemCompra) (cid : Nat) (tasa : ℚ)
    (db : DB),
    (∀ it ∈ items, (findProducto db.productos it.producto_id).isSome = true) →
    (items.map (fun it => it.producto_id)).Nodup →
    ∃ db', compraItems cid tasa items db = .ok db' ∧
      (∀ q, (∀ it ∈ items, it.producto_id ≠ q) →
        findProducto db'.productos q = findProducto db.productos q) ∧
      (∀ it ∈ items, ∀ p, findProducto db.productos it.producto_id = some p →
        findProducto db'.productos it.producto_id =
          some { p with precio_compra_usd := some it.precio_unitario_usd,
                        precio_compra := some (round2 (it.precio_unitario_usd * tasa)),
                        tasa_camb := tasa,
                        stock_actual := p.stock_actual + it.cantidad }) ∧
      (∃ nuevos, db'.movimientos = db.movimientos ++ nuevos ∧
        List.Forall₂ (fun (it : ItemCompra) (m : Movimiento) =>
          m.producto_id = it.producto_id ∧ m.tipo_movimiento = .entrada ∧
          m.cantidad = it.cantidad ∧
          m.cantidad_nueva - m.cantidad_anterior = it.cantidad ∧
          m.motivo = .compra cid) items nuevos) := by
  intro items
  induction items with
  | nil =>
      intro cid tasa db _ _
      refine ⟨db, rfl, fun q _ => rfl, by simp, ⟨[], by simp, List.Forall₂.nil⟩⟩
  | cons a rest ih =>
      intro cid tasa db hp hnd
      have ha := hp a (List.mem_cons_self a rest)
      rw [List.map_cons, List.nodup_cons] at hnd
      obtain ⟨hanotin, hndrest⟩ := hnd
      cases hf : findProducto db.productos a.producto_id with
      | none =>
          rw [hf] at ha
          simp at ha
      | some p =>
          obtain ⟨db2, hstep, hprod, hmovs, hv, hc, hdv, ht⟩ :=
            @compraItem_some' cid tasa a db p hf
          have hne2 : ∀ q, q ≠ a.producto_id →
              findProducto db2.productos q = findProducto db.productos q := by
            intro q hq
            rw [hprod, findProducto_setStock_ne hq, findProducto_costo_ne hq]
          have hself2 : findProducto db2.productos a.producto_id =
              some { p with
                precio_compra_usd := some a.precio_unitario_usd,
                precio_compra := some (round2 (a.precio_unitario_usd * tasa)),
                tasa_camb := tasa,
                stock_actual := p.stock_actual + a.cantidad } := by
            rw [hprod, findProducto_setStock_self (findProducto_costo_self hf)]
            simp [costoCompra]
          have hpres2 : ∀ it ∈ rest,
              (findProducto db2.productos it.producto_id).isSome = true := by
            intro it hit
            rcases Decidable.em (it.producto_id = a.producto_id) with heq | hne
            · rw [heq, hself2]
              rfl
            · rw [hne2 it.producto_id hne]
              exact hp it (List.mem_cons_of_mem a hit)
          obtain ⟨db', hok, hqne, hitok, nuevos, hm, hfa⟩ :=
            ih cid tasa db2 hpres2 hndrest
          have hrestne : ∀ it ∈ rest, it.producto_id ≠ a.producto_id := by
            intro it hit hcon
            exact hanotin (hcon ▸ List.mem_map_of_mem (fun x => x.producto_id) hit)
          refine ⟨db', by rw [compraItems_cons_ok hstep]; exact hok, ?_, ?_, ?_⟩
          · intro q hq
            rw [hqne q (fun it hit => hq it (List.mem_cons_of_mem a hit)),
              hne2 q (fun hcon => hq a (List.mem_cons_self a rest) hcon.symm)]
          · intro it hit p2 hp2
            rcases List.mem_cons.mp hit with rfl | hr
            · rw [hf] at hp2
              injection hp2 with hpp
              subst hpp
              rw [hqne it.producto_id (fun it2 hit2 => hrestne it2 hit2)]
              exact hself2
            · have hne : it.producto_id ≠ a.producto_id := hrestne it hr
              have hp2' : findProducto db2.productos it.producto_id = some p2 := by
                rw [hne2 it.producto_id hne]
                exact hp2
              exact hitok it hr p2 hp2'
          · refine ⟨⟨a.producto_id, .entrada, a.cantidad, p.stock_actual,
              p.stock_actual + a.cantidad, .compra cid, .sistema⟩ :: nuevos, ?_, ?_⟩
            · rw [hm, hmovs]
              simp
            · refine List.Forall₂.cons ⟨rfl, rfl, rfl, by ring, rfl⟩ hfa

theorem mem_insertLe {α : Type} (le : α → α → Bool) (a x : α) :
    ∀ (l : List α), x ∈ insertLe le a l ↔ x = a ∨ x ∈ l := by
  intro l
  induction l with
  | nil => simp [insertLe]
  | cons b bs ih =>
      by_cases h : le a b
      · simp [insertLe, h]
      · simp only [insertLe]
        rw [if_neg h]
        simp only [List.mem_cons, ih]
        tauto

theorem mem_sortLe {α : Type} (le : α → α → Bool) (x : α) :
    ∀ (l : List α), x ∈ sortLe le l ↔ x ∈ l := by
  intro l
  induction l with
  | nil => simp [sortLe]
  | cons b bs ih =>
      simp only [sortLe, mem_insertLe, ih, List.mem_cons]

theorem insertLe_ne_nil {α : Type} (le : α → α → Bool) (a : α) :
    ∀ (l : List α), insertLe le a l ≠ [] := by
  intro l
  cases l with
  | nil => simp [insertLe]
  | cons b bs =>
      by_cases h : le a b <;> simp [insertLe, h]

theorem sortLe_eq_nil_iff {α : Type} (le : α → α → Bool) :
    ∀ (l : List α), sortLe le l = [] ↔ l = [] := by
  intro l
  cases l with
  | nil => simp [sortLe]
  | cons b bs =>
      simp only [sortLe]
      constructor
      · intro h
        exact absurd h (insertLe_ne_nil le b (sortLe le bs))
      · intro h
        exact List.noConfusion h

theorem pairwise_insertLe {α : Type} (f : α → Nat) (le : α → α → Bool)
    (hT : ∀ a b, le a b = true → f a ≤ f b)
    (hF : ∀ a b, le a b = false → f b ≤ f a) (a : α) :
    ∀ (l : List α), l.Pairwise (fun x y => f x ≤ f y) →
      (insertLe le a l).Pairwise (fun x y => f x ≤ f y) := by
  intro l
  induction l with
  | nil =>
      intro _
      simp [insertLe]
  | cons b bs ih =>
      intro hp
      rw [List.pairwise_cons] at hp
      obtain ⟨hb, hbs⟩ := hp
      by_cases h : le a b
      · simp only [insertLe, h, if_true]
        refine List.Pairwise.cons ?_ (List.Pairwise.cons hb hbs)
        intro y hy
        rcases List.mem_cons.mp hy with rfl | hy2
        · exact hT a y h
        · exact le_trans (hT a b h) (hb y hy2)
      · simp only [insertLe]
        rw [if_neg h]
        refine List.Pairwise.cons ?_ (ih hbs)
        intro y hy
        rcases (mem_insertLe le a y bs).mp hy with heq | hy2
        · rw [heq]
          exact hF a b (by simpa using h)
        · exact hb y hy2

theorem pairwise_sortLe {α : Type} (f : α → Nat) (le : α → α → Bool)
    (hT : ∀ a b, le a b = true → f a ≤ f b)
    (hF : ∀ a b, le a b = false → f b ≤ f a) :
    ∀ (l : List α), (sortLe le l).Pairwise (fun x y => f x ≤ f y) := by
  intro l
  induction l with
  | nil => simp [sortLe]
  | cons b bs ih =>
      exact pairwise_insertLe f le hT hF b (sortLe le bs) ih

theorem ordExacta_rank_T (termino : Texto) :
    ∀ a b, ordExacta termino a b = true →
      rankExacto termino a ≤ rankExacto termino b := by
  intro a b h
  simp only [ordExacta, Bool.or_eq_true, Bool.and_eq_true, decide_eq_true_eq,
    beq_iff_eq] at h
  rcases h with h | ⟨h, _⟩
  · omega
  · omega

theorem ordExacta_rank_F (termino : Texto) :
    ∀ a b, ordExacta termino a b = false →
      rankExacto termino b ≤ rankExacto termino a := by
  intro a b h
  simp only [ordExacta, Bool.or_eq_false_iff, Bool.and_eq_false_iff,
    decide_eq_false_iff_not] at h
  omega

theorem recalcProducto_idem (tasa : ℚ) (p : Producto) :
    recalcProducto tasa (recalcProducto tasa p) = recalcProducto tasa p := by
  cases hv : p.precio_venta_usd <;> cases hc : p.precio_compra_usd <;>
    simp [recalcProducto, hv, hc]

theorem map_recalc_idem (tasa : ℚ) : ∀ (l : List Producto),
    (l.map (recalcProducto tasa)).map (recalcProducto tasa) =
      l.map (recalcProducto tasa) := by
  intro l
  induction l with
  | nil => rfl
  | cons p l ih => simp [recalcProducto_idem, ih]

theorem getTasaCambio_actualizar {r : ℚ} {db : DB}
    (hcfg : db.tasa_usd_ves.isSome = true) :
    getTasaCambio (actualizarTasaCambio r db) = r := by
  obtain ⟨t0, ht0⟩ := Option.isSome_iff_exists.mp hcfg
  simp [actualizarTasaCambio, recalcularPreciosVes, actualizarTasaConfig,
    getTasaCambio, ht0]

theorem mem_actualizar_productos {r : ℚ} {db : DB} {p' : Producto}
    (h : p' ∈ (actualizarTasaCambio r db).productos) :
    ∃ p ∈ db.productos, recalcProducto r p = p' := by
  have h2 : p' ∈ db.productos.map (recalcProducto r) := h
  obtain ⟨p, hp, heq⟩ := List.mem_map.mp h2
  exact ⟨p, hp, heq⟩

theorem DB_ext {a b : DB} (h1 : a.productos = b.productos)
    (h2 : a.ventas = b.ventas) (h3 : a.detalle_ventas = b.detalle_ventas)
    (h4 : a.compras = b.compras) (h5 : a.detalle_compras = b.detalle_compras)
    (h6 : a.movimientos = b.movimientos) (h7 : a.tasa_usd_ves = b.tasa_usd_ves) :
    a = b := by
  cases a
  cases b
  simp_all

/-- A product with a foreign-currency base sell price, a recorded rate of
36.50 and a consistent derived price, but no purchase cost: the WHERE clause
of `recalcular_precios_ves` skips it. -/
def prodC1 : Producto :=
  ⟨1, none, [], none, none, 365, none, some 10, none, 0, 0, 73 / 2, true⟩

def dbC1 : DB := ⟨[prodC1], [], [], [], [], [], some (73 / 2)⟩

/-- C1 counterexample: after `setRate(40)` the product that has a
foreign-currency base sell price (and a recorded rate) still carries the old
derivation rate 36.50, because the recomputation's WHERE clause requires the
purchase cost to be non-null as well. -/
theorem c1_counterexample :
    ∃ p ∈ (actualizarTasaCambio 40 dbC1).productos,
      p.precio_venta_usd.isSome = true ∧ ¬ p.tasa_camb = 40 := by
  have h : recalcProducto 40 prodC1 = prodC1 := by
    simp [recalcProducto, prodC1]
  refine ⟨prodC1, ?_, rfl, ?_⟩
  · simp [actualizarTasaCambio, recalcularPreciosVes, actualizarTasaConfig,
      dbC1, h]
  · show ¬ (73 / 2 : ℚ) = 40
    norm_num

/-- C1 (amended): for every product that has BOTH foreign-currency base
prices (sell and purchase), immediately after `setRate(r)` its derived
prices equal `round(base * r, 2)` and its recorded derivation rate equals
`r`; products missing either base price are skipped unchanged. -/
theorem c1_recalculo_tras_tasa (db : DB) (r : ℚ) (p' : Producto)
    (hmem : p' ∈ (actualizarTasaCambio r db).productos) (pv pc : ℚ)
    (hv : p'.precio_venta_usd = some pv) (hc : p'.precio_compra_usd = some pc) :
    p'.precio_venta = round2 (pv * r) ∧
      p'.precio_compra = some (round2 (pc * r)) ∧ p'.tasa_camb = r := by
  obtain ⟨p, hp, heq⟩ := mem_actualizar_productos hmem
  subst heq
  cases hv0 : p.precio_venta_usd with
  | none =>
      have hrec : recalcProducto r p = p := by
        simp [recalcProducto, hv0]
      rw [hrec] at hv
      rw [hv0] at hv
      exact Option.noConfusion hv
  | some pv0 =>
      cases hc0 : p.precio_compra_usd with
      | none =>
          have hrec : recalcProducto r p = p := by
            simp [recalcProducto, hv0, hc0]
          rw [hrec] at hc
          rw [hc0] at hc
          exact Option.noConfusion hc
      | some pc0 =>
          have hrec : recalcProducto r p =
              { p with precio_venta := round2 (pv0 * r),
                       precio_compra := some (round2 (pc0 * r)),
                       tasa_camb := r } := by
            simp [recalcProducto, hv0, hc0]
          rw [hrec] at hv hc ⊢
          have hpv : pv0 = pv := by
            have : p.precio_venta_usd = some pv := hv
            rw [hv0] at this
            injection this
          have hpc : pc0 = pc := by
            have : p.precio_compra_usd = some pc := hc
            rw [hc0] at this
            injection this
          subst hpv
          subst hpc
          exact ⟨rfl, rfl, rfl⟩

/-- A product with both USD base prices and derived prices consistent at the
rate 36.50, in a store whose configured rate is 36.50. -/
def prodC1w : Producto :=
  ⟨1, none, [], none, none, 365, some 292, some 10, some 8, 5, 0, 73 / 2, true⟩

def dbC1w : DB := ⟨[prodC1w], [], [], [], [], [], some (73 / 2)⟩

/-- The row `prodC1w` becomes after `setRate(40)`. -/
def prodC1wDespues : Producto :=
  ⟨1, none, [], none, none, 400, some 320, some 10, some 8, 5, 0, 40, true⟩

theorem c1_witness :
    prodC1wDespues ∈ (actualizarTasaCambio 40 dbC1w).productos ∧
    prodC1wDespues.precio_venta_usd = some 10 ∧
    prodC1wDespues.precio_compra_usd = some 8 ∧
    (prodC1wDespues.precio_venta = round2 (10 * 40) ∧
      prodC1wDespues.precio_compra = some (round2 (8 * 40)) ∧
      prodC1wDespues.tasa_camb = 40) := by
  have h : recalcProducto 40 prodC1w = prodC1wDespues := by
    simp [recalcProducto, prodC1w, prodC1wDespues]
    norm_num [round2, round_eq]
  have hmem : prodC1wDespues ∈ (actualizarTasaCambio 40 dbC1w).productos := by
    simp [actualizarTasaCambio, recalcularPreciosVes, actualizarTasaConfig,
      dbC1w, h]
  exact ⟨hmem, rfl, rfl,
    c1_recalculo_tras_tasa dbC1w 40 prodC1wDespues hmem 10 8 rfl rfl⟩

def prodC7 : Producto :=
  ⟨1, none, [], none, none, 365, some 292, some 10, some 8, 0, 0, 73 / 2, true⟩

def dbC7 : DB := ⟨[prodC7], [], [], [], [], [], some (73 / 2)⟩

/-- C7 counterexample: `setRate(40)` commits in two separate transactions,
and the state after the first commit — visible to any concurrent reader —
pairs the new rate 40 with a derived price still computed from 36.50. -/
theorem c7_counterexample :
    ∃ s ∈ setRateCommits 40 dbC7, rateConsistentB s = false := by
  refine ⟨actualizarTasaConfig 40 dbC7, by simp [setRateCommits], ?_⟩
  simp only [rateConsistentB, actualizarTasaConfig, dbC7, prodC7,
    getTasaCambio, Option.map_some', Option.getD_some, List.all_cons,
    List.all_nil, Bool.and_true]
  have h1 : ¬ (365 : ℚ) = round2 (10 * 40) := by
    norm_num [round2, round_eq]
  simp [h1]

/-- C7 (amended): the rate update and the catalog recomputation commit as
two successive transactions, so a reader may observe the new rate with stale
prices between them; the second committed state — the state `setRate` leaves
behind — is rate-consistent for every product carrying both USD base
prices. -/
theorem c7_commit_final_consistente (r : ℚ) (db : DB)
    (hcfg : db.tasa_usd_ves.isSome = true) :
    (setRateCommits r db).getLast? = some (actualizarTasaCambio r db) ∧
      rateConsistentB (actualizarTasaCambio r db) = true := by
  refine ⟨rfl, ?_⟩
  unfold rateConsistentB
  rw [List.all_eq_true]
  intro p hp
  obtain ⟨p0, hp0, heq⟩ := mem_actualizar_productos hp
  subst heq
  rw [getTasaCambio_actualizar hcfg]
  cases hv : p0.precio_venta_usd with
  | none => simp [recalcProducto, hv]
  | some pv =>
      cases hc : p0.precio_compra_usd with
      | none => simp [recalcProducto, hv, hc]
      | some pc => simp [recalcProducto, hv, hc]

theorem c7_witness :
    dbC7.tasa_usd_ves.isSome = true ∧
    ((setRateCommits 40 dbC7).getLast? = some (actualizarTasaCambio 40 dbC7) ∧
      rateConsistentB (actualizarTasaCambio 40 dbC7) = true) :=
  ⟨rfl, c7_commit_final_consistente 40 dbC7 rfl⟩

/-- C10: re-applying the current rate is idempotent — `setRate(r)` followed
by `setRate(getRate())` leaves the whole store, prices included, exactly as
after the first call (the configuration row exists in any initialised
store, `insert_initial_data` seeds it). -/
theorem c10_idempotencia_tasa (db : DB) (r : ℚ) (_hr : 0 < r)
    (hcfg : db.tasa_usd_ves.isSome = true) :
    actualizarTasaCambio (getTasaCambio (actualizarTasaCambio r db))
      (actualizarTasaCambio r db) = actualizarTasaCambio r db := by
  rw [getTasaCambio_actualizar hcfg]
  obtain ⟨t0, ht0⟩ := Option.isSome_iff_exists.mp hcfg
  apply DB_ext
  · simp only [actualizarTasaCambio, recalcularPreciosVes, actualizarTasaConfig]
    exact map_recalc_idem r db.productos
  · rfl
  · rfl
  · rfl
  · rfl
  · rfl
  · simp only [actualizarTasaCambio, recalcularPreciosVes, actualizarTasaConfig]
    rw [ht0]
    rfl

def prodC10 : Producto :=
  ⟨1, none, [], none, none, 365, some 292, some 10, some 8, 5, 0, 73 / 2, true⟩

def dbC10 : DB := ⟨[prodC10], [], [], [], [], [], some (73 / 2)⟩

theorem c10_witness :
    (0 : ℚ) < 50 ∧ dbC10.tasa_usd_ves.isSome = true ∧
    actualizarTasaCambio (getTasaCambio (actualizarTasaCambio 50 dbC10))
      (actualizarTasaCambio 50 dbC10) = actualizarTasaCambio 50 dbC10 :=
  ⟨by norm_num, rfl, c10_idempotencia_tasa dbC10 50 (by norm_num) rfl⟩

theorem agregarProducto_dup {codigo : Option Texto} {nombre : Texto}
    {descripcion : Option Texto} {categoria_id : Option Nat}
    {precio_venta : ℚ} {precio_compra : Option ℚ} {stock_inicial stock_minimo : ℚ}
    {db : DB}
    (hdup : db.productos.any
      (fun p => codigo.isSome && p.codigo_barras == codigo) = true) :
    agregarProducto codigo nombre descripcion categoria_id precio_venta
      precio_compra stock_inicial stock_minimo db = .error .duplicateKey := by
  unfold agregarProducto
  rw [if_pos hdup]

theorem agregarProducto_ok_pos {codigo : Option Texto} {nombre : Texto}
    {descripcion : Option Texto} {categoria_id : Option Nat}
    {precio_venta : ℚ} {precio_compra : Option ℚ} {stock_inicial stock_minimo : ℚ}
    {db : DB}
    (hdup : db.productos.any
      (fun p => codigo.isSome && p.codigo_barras == codigo) = false)
    (hs : stock_inicial > 0) :
    agregarProducto codigo nombre descripcion categoria_id precio_venta
      precio_compra stock_inicial stock_minimo db = .ok
      ({ db with
         productos := db.productos ++
           [productoNuevo (db.productos.length + 1) codigo nombre descripcion
             categoria_id precio_venta precio_compra stock_inicial stock_minimo],
         movimientos := db.movimientos ++
           [movStockInicial (db.productos.length + 1) stock_inicial] },
       db.productos.length + 1) := by
  unfold agregarProducto
  rw [if_neg (by simp [hdup]), if_pos hs]

theorem agregarProducto_ok_nonpos {codigo : Option Texto} {nombre : Texto}
    {descripcion : Option Texto} {categoria_id : Option Nat}
    {precio_venta : ℚ} {precio_compra : Option ℚ} {stock_inicial stock_minimo : ℚ}
    {db : DB}
    (hdup : db.productos.any
      (fun p => codigo.isSome && p.codigo_barras == codigo) = false)
    (hs : ¬ stock_inicial > 0) :
    agregarProducto codigo nombre descripcion categoria_id precio_venta
      precio_compra stock_inicial stock_minimo db = .ok
      ({ db with
         productos := db.productos ++
           [productoNuevo (db.productos.length + 1) codigo nombre descripcion
             categoria_id precio_venta precio_compra stock_inicial stock_minimo] },
       db.productos.length + 1) := by
  unfold agregarProducto
  rw [if_neg (by simp [hdup]), if_neg hs]

/-- C2: every inventory-movement row written by `crear_venta`,
`crear_compra`, `agregar_producto` (initial stock) or
`actualizar_stock_producto` reconciles — `cantidad_nueva - cantidad_anterior`
equals the signed delta, negative for `salida` rows — and each of these
operations only appends to `movimientos_inventario`: the old table survives
as a prefix and no row is edited or deleted. -/
theorem c2_movimientos_append_only :
    (∀ (items : List ItemVenta) (cliente_id : Option Nat) (metodo_pago : Texto)
      (descuento impuesto : ℚ) (notas : Texto) (db : DB),
      movAppendOk db
        (runCrearVenta items cliente_id metodo_pago descuento impuesto notas db).1) ∧
    (∀ (proveedor_id : Nat) (documento : Option Texto) (fecha : Texto) (tasa : ℚ)
      (items : List ItemCompra) (notas : Texto) (db : DB),
      movAppendOk db
        (runCrearCompra proveedor_id documento fecha tasa items notas db).1) ∧
    (∀ (codigo : Option Texto) (nombre : Texto) (descripcion : Option Texto)
      (categoria_id : Option Nat) (precio_venta : ℚ) (precio_compra : Option ℚ)
      (stock_inicial stock_minimo : ℚ) (db : DB),
      movAppendOk db
        (runAgregarProducto codigo nombre descripcion categoria_id precio_venta
          precio_compra stock_inicial stock_minimo db).1) ∧
    (∀ (pid : Nat) (cantidad_sumar : ℚ) (motivo : Motivo) (usuario : Usuario)
      (db : DB),
      movAppendOk db
        (runActualizarStockProducto pid cantidad_sumar motivo usuario db).1) := by
  refine ⟨?_, ?_, ?_, ?_⟩
  · intro items cliente_id metodo_pago descuento impuesto notas db
    unfold runCrearVenta
    cases hv : ventaItems (db.ventas.length + 1) items
        (ventaHeaderDB items cliente_id metodo_pago descuento impuesto notas db) with
    | error e =>
        have hcv : crearVenta items cliente_id metodo_pago descuento impuesto
            notas db = .error e := by
          unfold crearVenta
          rw [hv]
        rw [hcv]
        exact ⟨[], by simp, by simp⟩
    | ok db2 =>
        have hcv : crearVenta items cliente_id metodo_pago descuento impuesto
            notas db = .ok (db2, db.ventas.length + 1) := by
          unfold crearVenta
          rw [hv]
        rw [hcv]
        obtain ⟨nuevos, hm, hok⟩ := ventaItems_movs items _ _ db2 hv
        exact ⟨nuevos, by rw [hm]; rfl, hok⟩
  · intro proveedor_id documento fecha tasa items notas db
    unfold runCrearCompra
    cases hv : compraItems (db.compras.length + 1) tasa items
        (compraHeaderDB proveedor_id documento fecha tasa items notas db) with
    | error e =>
        have hcv : crearCompra proveedor_id documento fecha tasa items notas db
            = .error e := by
          unfold crearCompra
          rw [hv]
        rw [hcv]
        exact ⟨[], by simp, by simp⟩
    | ok db2 =>
        have hcv : crearCompra proveedor_id documento fecha tasa items notas db
            = .ok (db2, db.compras.length + 1) := by
          unfold crearCompra
          rw [hv]
        rw [hcv]
        obtain ⟨nuevos, hm, hok⟩ := compraItems_movs items _ _ _ db2 hv
        exact ⟨nuevos, by rw [hm]; rfl, hok⟩
  · intro codigo nombre descripcion categoria_id precio_venta precio_compra
      stock_inicial stock_minimo db
    unfold runAgregarProducto
    by_cases hdup : db.productos.any
        (fun p => codigo.isSome && p.codigo_barras == codigo) = true
    · rw [agregarProducto_dup hdup]
      exact ⟨[], by simp, by simp⟩
    · have hdup2 : db.productos.any
          (fun p => codigo.isSome && p.codigo_barras == codigo) = false := by
        simpa using hdup
      by_cases hs : stock_inicial > 0
      · rw [agregarProducto_ok_pos hdup2 hs]
        refine ⟨[movStockInicial (db.productos.length + 1) stock_inicial],
          rfl, ?_⟩
        intro m hm
        rcases List.mem_singleton.mp hm with rfl
        simp [movStockInicial, signedDelta]
      · rw [agregarProducto_ok_nonpos hdup2 hs]
        exact ⟨[], by simp, by simp⟩
  · intro pid cantidad_sumar motivo usuario db
    unfold runActualizarStockProducto actualizarStockProducto
    cases hf : findProducto db.productos pid with
    | none =>
        exact ⟨[], by simp, by simp⟩
    | some p =>
        refine ⟨[⟨pid, .entrada, cantidad_sumar, p.stock_actual,
          p.stock_actual + cantidad_sumar, motivo, usuario⟩], rfl, ?_⟩
        intro m hm
        rcases List.mem_singleton.mp hm with rfl
        simp [signedDelta]

/-- C3: a `crear_venta` whose line list references a product id with no
`productos` row fails — the stock SELECT finds nothing and the raised
exception is rolled back — leaving the store exactly in the pre-call state:
no sale header, no sale lines, no movements, no stock change. -/
theorem c3_venta_producto_inexistente (items : List ItemVenta)
    (cliente_id : Option Nat) (metodo_pago : Texto) (descuento impuesto : ℚ)
    (notas : Texto) (db : DB) (it : ItemVenta) (hmem : it ∈ items)
    (hnone : findProducto db.productos it.producto_id = none) :
    (∃ pid, crearVenta items cliente_id metodo_pago descuento impuesto notas db
        = .error (.notFound pid)) ∧
      runCrearVenta items cliente_id metodo_pago descuento impuesto notas db
        = (db, none) := by
  obtain ⟨pid, herr⟩ := ventaItems_err items (db.ventas.length + 1)
    (ventaHeaderDB items cliente_id metodo_pago descuento impuesto notas db)
    it hmem hnone
  have hcv : crearVenta items cliente_id metodo_pago descuento impuesto notas db
      = .error (.notFound pid) := by
    unfold crearVenta
    rw [herr]
  refine ⟨⟨pid, hcv⟩, ?_⟩
  unfold runCrearVenta
  rw [hcv]

def prodC3 : Producto :=
  ⟨1, none, [], none, none, 400, none, none, none, 5, 0, 36, true⟩

def dbC3 : DB := ⟨[prodC3], [], [], [], [], [], some 36⟩

theorem c3_witness :
    (⟨2, 1, 400⟩ : ItemVenta) ∈ [(⟨2, 1, 400⟩ : ItemVenta)] ∧
    findProducto dbC3.productos 2 = none ∧
    ((∃ pid, crearVenta [⟨2, 1, 400⟩] none [] 0 0 [] dbC3
        = .error (.notFound pid)) ∧
      runCrearVenta [⟨2, 1, 400⟩] none [] 0 0 [] dbC3 = (dbC3, none)) :=
  ⟨List.mem_singleton.mpr rfl, rfl,
   c3_venta_producto_inexistente [⟨2, 1, 400⟩] none [] 0 0 [] dbC3 ⟨2, 1, 400⟩
     (List.mem_singleton.mpr rfl) rfl⟩

/-- C4: when every line's product exists, `crear_venta` succeeds with no
insufficient-stock check anywhere — each product's stock after commit is its
stock before minus the total quantity sold, and nothing prevents that value
from being negative (oversell). -/
theorem c4_oversell_permitido (items : List ItemVenta) (cliente_id : Option Nat)
    (metodo_pago : Texto) (descuento impuesto : ℚ) (notas : Texto) (db : DB)
    (hp : ∀ it ∈ items, (findProducto db.productos it.producto_id).isSome = true) :
    ∃ db' vid, crearVenta items cliente_id metodo_pago descuento impuesto notas db
        = .ok (db', vid) ∧
      ∀ (pid : Nat) (p : Producto), findProducto db.productos pid = some p →
        findProducto db'.productos pid =
          some { p with stock_actual := p.stock_actual - sumCantidad pid items } := by
  obtain ⟨db', hrun, hmap⟩ := ventaItems_spec items (db.ventas.length + 1)
    (ventaHeaderDB items cliente_id metodo_pago descuento impuesto notas db) hp
  refine ⟨db', db.ventas.length + 1, ?_, ?_⟩
  · unfold crearVenta
    rw [hrun]
  · intro pid p hfp
    have hfp2 : findProducto (ventaHeaderDB items cliente_id metodo_pago
        descuento impuesto notas db).productos pid = some p := hfp
    rw [hmap pid, hfp2]
    rfl

def prodC4 : Producto :=
  ⟨1, none, [], none, none, 400, none, none, none, 1, 0, 36, true⟩

def dbC4 : DB := ⟨[prodC4], [], [], [], [], [], some 36⟩

theorem c4_witness :
    (∀ it ∈ [(⟨1, 5, 400⟩ : ItemVenta)],
      (findProducto dbC4.productos it.producto_id).isSome = true) ∧
    (∃ db' vid, crearVenta [⟨1, 5, 400⟩] none [] 0 0 [] dbC4 = .ok (db', vid) ∧
      ∀ (pid : Nat) (p : Producto), findProducto dbC4.productos pid = some p →
        findProducto db'.productos pid =
          some { p with
            stock_actual := p.stock_actual - sumCantidad pid [⟨1, 5, 400⟩] }) ∧
    prodC4.stock_actual - sumCantidad 1 [(⟨1, 5, 400⟩ : ItemVenta)] = -4 ∧
    (-4 : ℚ) < 0 := by
  have hp : ∀ it ∈ [(⟨1, 5, 400⟩ : ItemVenta)],
      (findProducto dbC4.productos it.producto_id).isSome = true := by
    intro it hit
    rcases List.mem_singleton.mp hit with rfl
    rfl
  refine ⟨hp, c4_oversell_permitido [⟨1, 5, 400⟩] none [] 0 0 [] dbC4 hp, ?_, ?_⟩
  · show (1 : ℚ) - sumCantidad 1 [(⟨1, 5, 400⟩ : ItemVenta)] = -4
    simp [sumCantidad]
    norm_num
  · norm_num

/-- C5: the `/api/venta` entry point rejects an empty cart with an
"El carrito está vacío" 400 before touching the database — no sale header,
no lines, no movements, no stock change are committed.  (The guard lives in
`api_crear_venta`; `crear_venta` itself is only reached with a non-empty
list.) -/
theorem c5_carrito_vacio (cliente_id : Option Nat) (metodo_pago : Texto)
    (descuento impuesto : ℚ) (notas : Texto) (db : DB) :
    apiCrearVenta [] cliente_id metodo_pago descuento impuesto notas db
        = .error .emptyCart ∧
      runApiCrearVenta [] cliente_id metodo_pago descuento impuesto notas db
        = (db, none) :=
  ⟨rfl, rfl⟩

def prodC6 : Producto :=
  ⟨1, none, [], none, none, 400, none, some 10, none, 5, 0, 36, true⟩

def dbC6 : DB := ⟨[prodC6], [], [], [], [], [], some 36⟩

/-- A PUT payload that supplies `stock_actual = 99` for a product whose
current stock is 5. -/
def datosC6 : ProductoPutData := ⟨none, [], none, none, 10, none, 99, 0⟩

/-- C6 counterexample: the PUT branch of `api_producto` writes the
payload's `stock_actual` straight onto the product row (and appends no
movement), so an update with a different supplied stock DOES modify
stock. -/
theorem c6_counterexample :
    stockOf dbC6 1 = 5 ∧ stockOf (apiProductoPut 1 datosC6 dbC6) 1 = 99 ∧
      ¬ stockOf (apiProductoPut 1 datosC6 dbC6) 1 = stockOf dbC6 1 := by
  refine ⟨rfl, rfl, ?_⟩
  have h1 : stockOf (apiProductoPut 1 datosC6 dbC6) 1 = 99 := rfl
  have h2 : stockOf dbC6 1 = 5 := rfl
  rw [h1, h2]
  norm_num

/-- C6 (amended): product soft-delete never modifies any stock and appends
no inventory movement; product update (PUT) also appends no movement and
leaves every other product's stock unchanged, but overwrites the target
product's stock with the payload's `stock_actual` — the target's stock is
therefore preserved exactly when the supplied value equals the current
one. -/
theorem c6_put_delete_stock (pid : Nat) (data : ProductoPutData) (db : DB) :
    (apiProductoPut pid data db).movimientos = db.movimientos ∧
    (apiProductoDelete pid db).movimientos = db.movimientos ∧
    (∀ q, stockOf (apiProductoDelete pid db) q = stockOf db q) ∧
    (∀ q, q ≠ pid → stockOf (apiProductoPut pid data db) q = stockOf db q) ∧
    ((findProducto db.productos pid).isSome = true →
      stockOf (apiProductoPut pid data db) pid = data.stock_actual) := by
  refine ⟨rfl, rfl, ?_, ?_, ?_⟩
  · intro q
    unfold stockOf apiProductoDelete
    rw [findProducto_mapIfId pid (fun p => { p with activo := false })
      (fun p => rfl) db.productos q]
    cases hq : findProducto db.productos q with
    | none => rfl
    | some r =>
        by_cases hr : r.id = pid <;> simp [hr]
  · intro q hq
    unfold stockOf apiProductoPut
    rw [findProducto_mapIfId pid (productoActualizado data (getTasaCambio db))
      (fun p => rfl) db.productos q]
    cases hfq : findProducto db.productos q with
    | none => rfl
    | some r =>
        have hid : r.id = q := findProducto_id hfq
        have hr : ¬ r.id = pid := by
          rw [hid]
          exact hq
        simp [hr]
  · intro hsome
    obtain ⟨p, hp⟩ := Option.isSome_iff_exists.mp hsome
    unfold stockOf apiProductoPut
    rw [findProducto_mapIfId pid (productoActualizado data (getTasaCambio db))
      (fun p => rfl) db.productos pid, hp]
    have hid : p.id = pid := findProducto_id hp
    simp [hid, productoActualizado]

theorem c6_witness :
    (findProducto dbC6.productos 1).isSome = true ∧
      stockOf (apiProductoPut 1 datosC6 dbC6) 1 = datosC6.stock_actual :=
  ⟨rfl, (c6_put_delete_stock 1 datosC6 dbC6).2.2.2.2 rfl⟩

/-- C8 (amended): `crear_compra`, when every line's product exists and no
product repeats, sets each line's product USD purchase cost to the line's
unit cost, its VES purchase cost to round(usd * rate, 2) — the rounded
product, not the raw product usd*rate the claim states —, records the rate
as the product's derivation rate, increments stock by the quantity, and
appends one `entrada` movement per line with delta = quantity and reason
Compra #<purchaseId>. -/
theorem c8_crear_compra (proveedor_id : Nat) (documento : Option Texto)
    (fecha : Texto) (tasa : ℚ) (items : List ItemCompra) (notas : Texto)
    (db : DB)
    (hp : ∀ it ∈ items, (findProducto db.productos it.producto_id).isSome = true)
    (hnd : (items.map (fun it => it.producto_id)).Nodup) :
    ∃ db' cid, crearCompra proveedor_id documento fecha tasa items notas db
        = .ok (db', cid) ∧
      (∀ it ∈ items, ∀ p, findProducto db.productos it.producto_id = some p →
        findProducto db'.productos it.producto_id =
          some { p with precio_compra_usd := some it.precio_unitario_usd,
                        precio_compra := some (round2 (it.precio_unitario_usd * tasa)),
                        tasa_camb := tasa,
                        stock_actual := p.stock_actual + it.cantidad }) ∧
      (∃ nuevos, db'.movimientos = db.movimientos ++ nuevos ∧
        List.Forall₂ (fun (it : ItemCompra) (m : Movimiento) =>
          m.producto_id = it.producto_id ∧ m.tipo_movimiento = .entrada ∧
          m.cantidad = it.cantidad ∧
          m.cantidad_nueva - m.cantidad_anterior = it.cantidad ∧
          m.motivo = .compra cid) items nuevos) := by
  obtain ⟨db', hok, hqne, hitok, nuevos, hm, hfa⟩ := compraItems_spec items
    (db.compras.length + 1) tasa
    (compraHeaderDB proveedor_id documento fecha tasa items notas db) hp hnd
  refine ⟨db', db.compras.length + 1, ?_, ?_, nuevos, ?_, hfa⟩
  · unfold crearCompra
    rw [hok]
  · intro it hit p hp2
    have hp2' : findProducto (compraHeaderDB proveedor_id documento fecha tasa
        items notas db).productos it.producto_id = some p := hp2
    exact hitok it hit p hp2'
  · rw [hm]
    rfl

def prodC8 : Producto :=
  ⟨1, none, [], none, none, 400, none, some 10, none, 0, 0, 36, true⟩

def dbC8 : DB := ⟨[prodC8], [], [], [], [], [], some 36⟩

theorem c8_witness :
    (∀ it ∈ [(⟨1, 10, 8⟩ : ItemCompra)],
      (findProducto dbC8.productos it.producto_id).isSome = true) ∧
    ([(⟨1, 10, 8⟩ : ItemCompra)].map (fun it => it.producto_id)).Nodup ∧
    (∃ db' cid, crearCompra 7 none [] 40 [⟨1, 10, 8⟩] [] dbC8 = .ok (db', cid) ∧
      (∀ it ∈ [(⟨1, 10, 8⟩ : ItemCompra)], ∀ p,
        findProducto dbC8.productos it.producto_id = some p →
        findProducto db'.productos it.producto_id =
          some { p with precio_compra_usd := some it.precio_unitario_usd,
                        precio_compra := some (round2 (it.precio_unitario_usd * 40)),
                        tasa_camb := 40,
                        stock_actual := p.stock_actual + it.cantidad }) ∧
      (∃ nuevos, db'.movimientos = dbC8.movimientos ++ nuevos ∧
        List.Forall₂ (fun (it : ItemCompra) (m : Movimiento) =>
          m.producto_id = it.producto_id ∧ m.tipo_movimiento = .entrada ∧
          m.cantidad = it.cantidad ∧
          m.cantidad_nueva - m.cantidad_anterior = it.cantidad ∧
          m.motivo = .compra cid) [⟨1, 10, 8⟩] nuevos)) := by
  have hp : ∀ it ∈ [(⟨1, 10, 8⟩ : ItemCompra)],
      (findProducto dbC8.productos it.producto_id).isSome = true := by
    intro it hit
    rcases List.mem_singleton.mp hit with rfl
    rfl
  have hnd : ([(⟨1, 10, 8⟩ : ItemCompra)].map (fun it => it.producto_id)).Nodup := by
    simp
  exact ⟨hp, hnd, c8_crear_compra 7 none [] 40 [⟨1, 10, 8⟩] [] dbC8 hp hnd⟩

def prodC8c : Producto :=
  ⟨1, none, [], none, none, 400, none, some 10, none, 0, 0, 36, true⟩

def dbC8c : DB := ⟨[prodC8c], [], [], [], [], [], some 36⟩

/-- C8 counterexample: the stored local-currency unit cost is
`round(usd * rate, 2)`, not `usd * rate`: a purchase of a product at USD
unit cost 0.015 with rate 1 stores a VES purchase cost of 0.02, which
differs from 0.015 * 1. -/
theorem c8_counterexample :
    ∃ db' cid, crearCompra 7 none [] 1 [⟨1, 2, 3 / 200⟩] [] dbC8c
        = .ok (db', cid) ∧
      ∃ p, findProducto db'.productos 1 = some p ∧
        ¬ p.precio_compra = some ((3 : ℚ) / 200 * 1) := by
  have hp : ∀ it ∈ [(⟨1, 2, 3 / 200⟩ : ItemCompra)],
      (findProducto dbC8c.productos it.producto_id).isSome = true := by
    intro it hit
    rcases List.mem_singleton.mp hit with rfl
    rfl
  have hnd : ([(⟨1, 2, 3 / 200⟩ : ItemCompra)].map
      (fun it => it.producto_id)).Nodup := by
    simp
  obtain ⟨db', hok, hqne, hitok, nuevos, hm, hfa⟩ := compraItems_spec
    [⟨1, 2, 3 / 200⟩] (dbC8c.compras.length + 1) 1
    (compraHeaderDB 7 none [] 1 [⟨1, 2, 3 / 200⟩] [] dbC8c) hp hnd
  refine ⟨db', dbC8c.compras.length + 1, ?_, ?_⟩
  · unfold crearCompra
    rw [hok]
  · have hfind : findProducto dbC8c.productos 1 = some prodC8c := rfl
    have hres := hitok ⟨1, 2, 3 / 200⟩ (List.mem_singleton.mpr rfl) prodC8c hfind
    refine ⟨_, hres, ?_⟩
    simp only [Option.some.injEq]
    norm_num [round2, round_eq]

def prodC9a : Producto :=
  ⟨1, some [1, 2, 3], [0], none, none, 100, none, none, none, 0, 0, 36, true⟩

def prodC9b : Producto :=
  ⟨2, some [1, 2, 3, 4], [1], none, none, 100, none, none, none, 0, 0, 36, true⟩

def dbC9 : DB := ⟨[prodC9a, prodC9b], [], [], [], [], [], some 36⟩

/-- C9 counterexample: the "exact" query of `buscar_productos` is
`codigo_barras = ? OR codigo_barras LIKE '%?%'`, so searching for the term
that exactly equals product 1's barcode also returns product 2, whose
barcode merely CONTAINS the term — the result is not restricted to exact
matches. -/
theorem c9_counterexample :
    ∃ p ∈ buscarProductos [1, 2, 3] dbC9, ¬ p.codigo_barras = some [1, 2, 3] := by
  have hres : buscarProductos [1, 2, 3] dbC9 = [prodC9a, prodC9b] := rfl
  refine ⟨prodC9b, ?_, ?_⟩
  · rw [hres]
    simp
  · show ¬ some [1, 2, 3, 4] = some [1, 2, 3]
    simp

/-- C9 (amended): for a non-empty search term that exactly equals some
active product's barcode, `buscar_productos` returns exactly the active
products whose barcode contains the term as a substring (exact AND partial
barcode matches; names and descriptions are not consulted), with exact
barcode matches ranked above the substring-only ones. -/
theorem c9_busqueda_codigo_exacto (termino : Texto) (db : DB)
    (hne : ¬ termino = [])
    (hex : ∃ p ∈ db.productos, p.activo = true ∧ p.codigo_barras = some termino) :
    (∀ p, p ∈ buscarProductos termino db ↔
      (p ∈ db.productos ∧ p.activo = true ∧ matchCodigo termino p = true)) ∧
    (buscarProductos termino db).Pairwise
      (fun a b => rankExacto termino a ≤ rankExacto termino b) := by
  have hsort : ∃ x l, sortLe (ordExacta termino)
      (db.productos.filter (fun p => p.activo && matchCodigo termino p))
      = x :: l := by
    obtain ⟨p0, hp0, hact, hcod⟩ := hex
    have hmemf : p0 ∈ db.productos.filter
        (fun p => p.activo && matchCodigo termino p) := by
      rw [List.mem_filter]
      refine ⟨hp0, ?_⟩
      simp [hact, matchCodigo, hcod]
    have hmems : p0 ∈ sortLe (ordExacta termino)
        (db.productos.filter (fun p => p.activo && matchCodigo termino p)) :=
      (mem_sortLe _ _ _).mpr hmemf
    cases hs : sortLe (ordExacta termino)
        (db.productos.filter (fun p => p.activo && matchCodigo termino p)) with
    | nil =>
        rw [hs] at hmems
        exact absurd hmems (List.not_mem_nil p0)
    | cons x l => exact ⟨x, l, rfl⟩
  obtain ⟨x, l, hs⟩ := hsort
  have hne2 : ¬ termino.isEmpty = true := by
    simp only [List.isEmpty_iff]
    exact hne
  have hne3 : ¬ (sortLe (ordExacta termino)
      (db.productos.filter (fun p => p.activo && matchCodigo termino p))).isEmpty
      = true := by
    rw [hs]
    simp
  have hbr : buscarProductos termino db = sortLe (ordExacta termino)
      (db.productos.filter (fun p => p.activo && matchCodigo termino p)) := by
    unfold buscarProductos
    rw [if_neg hne2, if_neg hne3]
  constructor
  · intro p
    rw [hbr, mem_sortLe, List.mem_filter]
    simp [Bool.and_eq_true]
  · rw [hbr]
    exact pairwise_sortLe (rankExacto termino) (ordExacta termino)
      (ordExacta_rank_T termino) (ordExacta_rank_F termino) _

theorem c9_witness :
    ¬ ([1, 2, 3] : Texto) = [] ∧
    (∃ p ∈ dbC9.productos, p.activo = true ∧ p.codigo_barras = some [1, 2, 3]) ∧
    ((∀ p, p ∈ buscarProductos [1, 2, 3] dbC9 ↔
      (p ∈ dbC9.productos ∧ p.activo = true ∧ matchCodigo [1, 2, 3] p = true)) ∧
    (buscarProductos [1, 2, 3] dbC9).Pairwise
      (fun a b => rankExacto [1, 2, 3] a ≤ rankExacto [1, 2, 3] b)) := by
  have hne : ¬ ([1, 2, 3] : Texto) = [] := by simp
  have hex : ∃ p ∈ dbC9.productos, p.activo = true ∧
      p.codigo_barras = some [1, 2, 3] :=
    ⟨prodC9a, by simp [dbC9], rfl, rfl⟩
  exact ⟨hne, hex, c9_busqueda_codigo_exacto [1, 2, 3] dbC9 hne hex⟩
